import Mathlib

/-!
Verification development for the RightBoss tiered profile/onboarding core.

Shallow embedding of the profile aggregate store (ProfileContext: ProfileData,
isOnboardingComplete, loadProfileData, completeStep, saveProfile), the section
orchestrator (UnifiedProfileExperience: profileSections, canContinue,
handleNext, handleSectionClick), the tier classifier (TieredProfileSection:
FieldTier, visibleFields), the personal-info validator (TieredPersonalInfo:
validateAndNotify), and the auth event queue of UserContext
(processNextAuthEvent and the onAuthStateChange handler).

Remote calls (Supabase selects and upserts) are modelled by explicit oracles:
each remote operation's outcome is a parameter of the embedded function, and
the writes a function issues are returned as an explicit list of operations.
-/

namespace RightBoss

/-- Tri-state company-stage preference, from the ProfileData model. -/
inductive StagePref
  | neutral
  | preferred
  | avoid
deriving DecidableEq, Repr

/-- The company_stage_preferences record of ProfileData. -/
structure CompanyStagePreferences where
  early_stage : StagePref
  late_stage : StagePref
  enterprise : StagePref
deriving DecidableEq, Repr

/-- The remote_preference enum of ProfileData. -/
inductive RemotePreference
  | remote
  | hybrid
  | office
  | flexible
deriving DecidableEq, Repr

/-- The employment_type enum of ProfileData. -/
inductive EmploymentType
  | full_time
  | part_time
  | contract
  | internship
deriving DecidableEq, Repr

/-- The resume record of ProfileData. -/
structure ResumeRef where
  file_url : String
  file_name : String
  upload_date : String
deriving DecidableEq, Repr

/--
The in-memory profile aggregate (interface ProfileData of ProfileContext).
Fields that loadProfileData always fills with a string (falling back to the
empty string) are plain String; title, bio and graduation_date, which the
code leaves undefined or null, are Option String.
-/
structure ProfileData where
  id : String
  full_name : String
  email : String
  avatar_url : String
  phone_number : String
  location : String
  title : Option String
  bio : Option String
  linkedin_url : String
  github_url : String
  website_url : String
  resume_url : String
  company_stage_preferences : CompanyStagePreferences
  locations : List String
  remote_preference : RemotePreference
  graduation_date : Option String
  employment_type : EmploymentType
  selected_roles : List String
  resume : Option ResumeRef
  onboarding_completed : Bool
  completed_steps : List String
deriving DecidableEq, Repr

/-- The initialProfileData constant of ProfileContext. -/
def initialProfileData : ProfileData :=
  { id := ""
    full_name := ""
    email := ""
    avatar_url := ""
    phone_number := ""
    location := ""
    title := none
    bio := none
    linkedin_url := ""
    github_url := ""
    website_url := ""
    resume_url := ""
    company_stage_preferences :=
      { early_stage := .neutral, late_stage := .neutral, enterprise := .neutral }
    locations := []
    remote_preference := .flexible
    graduation_date := none
    employment_type := .full_time
    selected_roles := []
    resume := none
    onboarding_completed := false
    completed_steps := [] }

/--
The derived isOnboardingComplete signal of ProfileContext: false while
loading or with no profile data; otherwise the explicit flag, or else the
minimum-requirements heuristic (at least one selected role and at least two
completed steps).
-/
def isOnboardingComplete (isLoading : Bool) (profileData : Option ProfileData) : Bool :=
  if isLoading then false
  else
    match profileData with
    | none => false
    | some d =>
      if d.onboarding_completed then true
      else decide (0 < d.selected_roles.length) && decide (2 ≤ d.completed_steps.length)

/-- The three remote tables written by saveProfile. -/
inductive RemoteTable
  | profiles
  | user_preferences
  | user_onboarding
deriving DecidableEq, Repr

/-- A remote write issued by a store operation. -/
inductive RemoteOp
  | upsert (table : RemoteTable)
deriving DecidableEq, Repr

/--
completeStep of ProfileContext: appends the step to completed_steps only if
it is not already present.  The second component is the list of remote
writes the operation issues: the source function only calls setProfileData
and performs no Supabase call, so that list is empty on both branches.
-/
def completeStep (pd : ProfileData) (stepId : String) : ProfileData × List RemoteOp :=
  if stepId ∈ pd.completed_steps then (pd, [])
  else ({ pd with completed_steps := pd.completed_steps ++ [stepId] }, [])

/--
Outcomes of the three upserts issued by saveProfile, as an oracle: a field is
true when the corresponding upsert returned no error.
-/
structure SaveRemote where
  profilesOk : Bool
  preferencesOk : Bool
  onboardingOk : Bool
deriving DecidableEq, Repr

/--
saveProfile of ProfileContext.  Returns the list of upserts issued (in
order) and the overall result: none models the early return undefined when
profileData is null; otherwise some of the saveSuccessful boolean, which
starts true and is set to false by each failing upsert.  The source never
aborts between the three upserts (each error branch only logs and clears
saveSuccessful, commented "Don't throw to allow partial saves") and never
throws to the caller (the outer catch returns false); the trailing
verification re-read is a select that does not affect the result and is not
modelled as a write.
-/
def saveProfile (profileData : Option ProfileData) (r : SaveRemote) :
    List RemoteOp × Option Bool :=
  match profileData with
  | none => ([], none)
  | some _ =>
    let s0 := true
    let s1 := if r.profilesOk then s0 else false
    let s2 := if r.preferencesOk then s1 else false
    let s3 := if r.onboardingOk then s2 else false
    ([RemoteOp.upsert .profiles, RemoteOp.upsert .user_preferences,
      RemoteOp.upsert .user_onboarding], some s3)

/-- Outcome of one remote select in loadProfileData: row data or an error code. -/
inductive FetchRes (α : Type)
  | success (data : α)
  | failure (code : String)
deriving DecidableEq, Repr

/-- The row shape read from the profiles table by loadProfileData. -/
structure ProfileRow where
  full_name : Option String
  email : Option String
  avatar_url : Option String
  phone_number : Option String
  location : Option String
  linkedin_url : Option String
  github_url : Option String
  website_url : Option String
deriving DecidableEq, Repr

/-- The row shape read from the user_preferences table by loadProfileData. -/
structure PreferencesRow where
  resume_url : Option String
  company_stage_preferences : Option CompanyStagePreferences
  locations : Option (List String)
  remote_preference : Option RemotePreference
  graduation_date : Option String
  employment_type : Option EmploymentType
deriving DecidableEq, Repr

/-- The row shape read from the user_onboarding table by loadProfileData. -/
structure OnboardingRow where
  selected_roles : Option (List String)
  completed_steps : Option (List String)
  completed : Option Bool
deriving DecidableEq, Repr

/-- The authenticated user returned by supabase.auth.getUser, with the
user_metadata fields loadProfileData consults. -/
structure AuthUser where
  id : String
  email : Option String
  meta_full_name : Option String
  meta_avatar_url : Option String
deriving DecidableEq, Repr

/-- The PostgREST code for a missing row, treated as not-found by the code. -/
def notFoundCode : String := "PGRST116"

/-- JavaScript a-or-b on possibly-absent strings: the empty string is falsy. -/
def strOr (a b : Option String) : Option String :=
  match a with
  | some s => if s = "" then b else some s
  | none => b

/-- Read a possibly-absent string, defaulting to the empty string. -/
def orEmpty (a : Option String) : String := a.getD ""

/--
The combinedData record built by loadProfileData: spreads initialProfileData
and overrides each field from the profile row, the preferences row, the
onboarding row and the auth user's metadata with the fallback chains of the
source (title, bio and resume are not assigned there and keep their
initialProfileData values through the spread).
-/
def combineProfileData (u : AuthUser) (prow : Option ProfileRow)
    (prefRow : Option PreferencesRow) (onbRow : Option OnboardingRow) : ProfileData :=
  { initialProfileData with
    id := u.id
    full_name := orEmpty (strOr (prow.bind ProfileRow.full_name) u.meta_full_name)
    email := orEmpty (strOr (prow.bind ProfileRow.email) u.email)
    avatar_url := orEmpty (strOr (prow.bind ProfileRow.avatar_url) u.meta_avatar_url)
    phone_number := orEmpty (prow.bind ProfileRow.phone_number)
    location := orEmpty (prow.bind ProfileRow.location)
    linkedin_url := orEmpty (prow.bind ProfileRow.linkedin_url)
    github_url := orEmpty (prow.bind ProfileRow.github_url)
    website_url := orEmpty (prow.bind ProfileRow.website_url)
    resume_url := orEmpty (prefRow.bind PreferencesRow.resume_url)
    company_stage_preferences :=
      (prefRow.bind PreferencesRow.company_stage_preferences).getD
        initialProfileData.company_stage_preferences
    locations := (prefRow.bind PreferencesRow.locations).getD []
    remote_preference := (prefRow.bind PreferencesRow.remote_preference).getD .flexible
    graduation_date := prefRow.bind PreferencesRow.graduation_date
    employment_type := (prefRow.bind PreferencesRow.employment_type).getD .full_time
    selected_roles := (onbRow.bind OnboardingRow.selected_roles).getD []
    onboarding_completed := (onbRow.bind OnboardingRow.completed).getD false
    completed_steps := (onbRow.bind OnboardingRow.completed_steps).getD [] }

/-- Row available after a maybeSingle select: on any error the data is null. -/
def rowOf {α : Type} : FetchRes (Option α) → Option α
  | .success r => r
  | .failure _ => none

/--
loadProfileData of ProfileContext, over oracles for the three selects.
Returns the profile aggregate the load installs, or none when it leaves the
in-memory aggregate untouched: no authenticated user aborts; a profiles
error other than PGRST116 logs and returns early; a PGRST116 profiles error
continues with a null profile row; any preferences or onboarding error only
logs (the onboarding log is gated on the code differing from PGRST116) and
the load continues with null data for that table.
-/
def loadProfileData (user : Option AuthUser) (profileRes : FetchRes ProfileRow)
    (preferencesRes : FetchRes (Option PreferencesRow))
    (onboardingRes : FetchRes (Option OnboardingRow)) : Option ProfileData :=
  match user with
  | none => none
  | some u =>
    match profileRes with
    | .failure c =>
      if c == notFoundCode then
        some (combineProfileData u none (rowOf preferencesRes) (rowOf onboardingRes))
      else none
    | .success prow =>
      some (combineProfileData u (some prow) (rowOf preferencesRes) (rowOf onboardingRes))

/-- The two rendering/navigation modes of the unified profile experience. -/
inductive ExperienceMode
  | onboarding
  | profile
deriving DecidableEq, Repr

/-- One entry of the profileSections array (required is undefined for the
welcome and complete pseudo-sections). -/
structure SectionDef where
  id : String
  title : String
  required : Option Bool
deriving DecidableEq, Repr

/-- The profileSections array of UnifiedProfileExperience, in order. -/
def profileSections : List SectionDef :=
  [ { id := "welcome", title := "Welcome", required := none }
  , { id := "personal", title := "Personal Information", required := some true }
  , { id := "roles", title := "Roles & Skills", required := some true }
  , { id := "preferences", title := "Preferences", required := some false }
  , { id := "education", title := "Education", required := some false }
  , { id := "resume", title := "Resume", required := some false }
  , { id := "complete", title := "Complete", required := none } ]

/-- Truthiness of the optional required flag of a section. -/
def sectionRequired (s : SectionDef) : Bool := s.required.getD false

/-- JavaScript array indexing: out-of-range (including negative) is undefined. -/
def sectionAt (i : Int) : Option SectionDef :=
  if i < 0 then none else profileSections.get? i.toNat

/--
canContinue of UnifiedProfileExperience: false while saving or on an
out-of-range step; welcome and complete always continue; required sections
need the current form-valid flag; optional sections always continue.
-/
def canContinue (currentStep : Int) (isSaving isFormValid : Bool) : Bool :=
  if isSaving then false
  else
    match sectionAt currentStep with
    | none => false
    | some sec =>
      if sec.id == "welcome" || sec.id == "complete" then true
      else if sectionRequired sec then isFormValid
      else true

/-- The navigation-and-aggregate state handleNext and handleSectionClick act on. -/
structure OrchState where
  currentStep : Int
  activeSection : String
  profileData : ProfileData
deriving DecidableEq, Repr

/-- Observable actions of one handleNext run, in program order. -/
inductive OrchEvent
  | save
  | markComplete (sectionId : String)
  | setCompletedFlag
  | incrementStep
  | redirectToDashboard
deriving DecidableEq, Repr

/--
handleNext of UnifiedProfileExperience (the happy path: saveProfile never
throws, so the catch branches are dead).  Returns the new state and the
trace of observable actions in the order the source performs them: an extra
leading save for the personal section; marking the active section complete
when not already in completed_steps (a local updateProfile); then, at the
last index, setting onboarding_completed, a final save and the dashboard
redirect without incrementing; otherwise incrementing the step and then
saving.
-/
def handleNext (s : OrchState) (isSaving isFormValid : Bool) :
    OrchState × List OrchEvent :=
  if !canContinue s.currentStep isSaving isFormValid then (s, [])
  else
    let ev0 : List OrchEvent :=
      if s.activeSection == "personal" then [.save] else []
    let pd := s.profileData
    let marked := pd.completed_steps.contains s.activeSection
    let pd1 :=
      if marked then pd
      else { pd with completed_steps := pd.completed_steps ++ [s.activeSection] }
    let ev1 : List OrchEvent :=
      if marked then [] else [.markComplete s.activeSection]
    if s.currentStep == (profileSections.length : Int) - 1 then
      ({ s with profileData := { pd1 with onboarding_completed := true } },
        ev0 ++ ev1 ++ [.setCompletedFlag, .save, .redirectToDashboard])
    else
      let nextStep := s.currentStep + 1
      ({ currentStep := nextStep
         activeSection :=
           -- in range whenever canContinue held: the last index took the
           -- terminal branch above, so nextStep indexes a real section
           match sectionAt nextStep with
           | some sec => sec.id
           | none => s.activeSection
         profileData := pd1 },
        ev0 ++ ev1 ++ [.incrementStep, .save])

/-- Index of a section id in profileSections; -1 when absent (findIndex). -/
def findSectionIndex (sectionId : String) : Int :=
  match profileSections.findIdx? (fun sec => sec.id == sectionId) with
  | some i => (i : Int)
  | none => -1

/--
handleSectionClick of UnifiedProfileExperience, after its DOM-target guard:
a click is honoured in profile mode, or in onboarding mode when the clicked
section is already in completed_steps; an honoured click on a different
section sets the active section and the step index; everything else leaves
the navigation state unchanged.
-/
def handleSectionClick (mode : ExperienceMode) (s : OrchState)
    (sectionId : String) : OrchState :=
  if mode == .profile || s.profileData.completed_steps.contains sectionId then
    if s.activeSection == sectionId then s
    else { s with activeSection := sectionId, currentStep := findSectionIndex sectionId }
  else s

/-- The FieldTier enum of TieredProfileSection. -/
inductive FieldTier
  | ESSENTIAL
  | IMPORTANT
  | COMPREHENSIVE
deriving DecidableEq, Repr

/--
One entry of a section's duck-typed fields array.  The tier is optional in
the model: none stands for a field object whose tier is undefined or not one
of the three enum values, which the strict-equality comparison of the source
treats like any non-essential tier.
-/
structure TieredField where
  id : String
  tier : Option FieldTier
  required : Bool
deriving DecidableEq, Repr

/--
The visibility predicate of TieredProfileSection's visibleFields filter: in
onboarding mode only fields whose tier strict-equals ESSENTIAL; in profile
mode every field.
-/
def isVisibleField (f : TieredField) (mode : ExperienceMode) : Bool :=
  match mode with
  | .onboarding => f.tier == some FieldTier.ESSENTIAL
  | .profile => true

/-- The visibleFields array computed by TieredProfileSection. -/
def visibleFields (fields : List TieredField) (mode : ExperienceMode) : List TieredField :=
  fields.filter (fun f => isVisibleField f mode)

/-- The character class of the JavaScript regex token backslash-s, on the
ASCII range used by the validators. -/
def jsWhitespace (c : Char) : Bool :=
  c == ' ' || c == '\t' || c == '\n' || c == '\r' || c == '\x0b' || c == '\x0c'

/-- String.prototype.trim: drop whitespace from both ends. -/
def trimChars (s : List Char) : List Char :=
  ((s.dropWhile jsWhitespace).reverse.dropWhile jsWhitespace).reverse

/-- A character admitted by the regex class excluding whitespace and the at
sign, used on both sides of the at sign in the email regex. -/
def isEmailLocalChar (c : Char) : Bool := !jsWhitespace c && c != '@'

/--
The anchored email regex of validateAndNotify: one or more non-space
non-at characters, an at sign, then non-space non-at characters containing a
dot that is neither directly after the at sign nor last.  Because both
classes exclude the at sign, a match must split the string at its first at
sign, which is how this decision procedure is phrased.
-/
def emailRegexAccepts (s : List Char) : Bool :=
  let beforeAt := s.takeWhile (fun c => c != '@')
  match s.drop beforeAt.length with
  | [] => false
  | _ :: afterAt =>
    !beforeAt.isEmpty && beforeAt.all isEmailLocalChar &&
      afterAt.all isEmailLocalChar &&
      ((afterAt.drop 1).dropLast).contains '.'

/-- The character class of the phone regex: digits, whitespace, dash and
parentheses. -/
def isPhoneClassChar (c : Char) : Bool :=
  c.isDigit || jsWhitespace c || c == '-' || c == '(' || c == ')'

/--
The anchored phone regex of validateAndNotify: an optional leading plus sign
followed by at least ten characters of the digit-space-dash-parenthesis
class.  The plus sign is not in the class, so a leading plus is consumed
exactly when present.
-/
def phoneRegexAccepts (s : List Char) : Bool :=
  let t := match s with
    | '+' :: rest => rest
    | _ => s
  decide (10 ≤ t.length) && t.all isPhoneClassChar

/--
The validity computed by validateAndNotify of TieredPersonalInfo (the value
it reports through onValidationChange): trimmed name of length at least two,
email matching the email regex, and a phone that is blank after trimming or
matches the phone regex.
-/
def validatePersonalInfo (fullName email phone : List Char) : Bool :=
  let nameValid := decide (2 ≤ (trimChars fullName).length)
  let emailValid := emailRegexAccepts email
  let phoneValid := (trimChars phone).isEmpty || phoneRegexAccepts phone
  nameValid && emailValid && phoneValid

/-- One queued auth notification: the event name and the session's user, the
payload detail the drain loop consults. -/
structure QueuedAuthEvent where
  event : String
  sessionUser : Option String
deriving DecidableEq, Repr

/--
State of the auth-event machinery of UserContext: the FIFO queue ref, the
currently-processing flag ref, the event a running drain holds (the local
nextEvent of processNextAuthEvent between its shift and its finally), the
events fully processed in order, and a ghost log of every event delivered,
in arrival order, used to state ordering properties.
-/
structure AuthQueueState where
  queue : List QueuedAuthEvent
  processing : Bool
  current : Option QueuedAuthEvent
  processed : List QueuedAuthEvent
  arrived : List QueuedAuthEvent
deriving DecidableEq, Repr

/-- The provider mounts with an empty queue and no drain running. -/
def initialAuthQueueState : AuthQueueState :=
  { queue := [], processing := false, current := none, processed := [], arrived := [] }

/--
The synchronous head of processNextAuthEvent: return unchanged when a drain
is already running or the queue is empty; otherwise set the processing flag
and shift the head of the queue into the running drain.
-/
def tryProcessNext (s : AuthQueueState) : AuthQueueState :=
  if s.processing then s
  else
    match s.queue with
    | [] => s
    | e :: rest => { s with queue := rest, processing := true, current := some e }

/--
The onAuthStateChange handler: push the new event onto the queue immediately
and call processNextAuthEvent.  The ghost arrival log records the event.
-/
def onAuthStateChange (s : AuthQueueState) (e : QueuedAuthEvent) : AuthQueueState :=
  tryProcessNext { s with queue := s.queue ++ [e], arrived := s.arrived ++ [e] }

/--
The finally block of processNextAuthEvent when the awaited event handling
returns: record the event as processed, clear the flag, and drain again if
the queue is non-empty (the recursive call).
-/
def finishCurrent (s : AuthQueueState) : AuthQueueState :=
  match s.current with
  | none => s
  | some e =>
    tryProcessNext
      { s with processing := false, current := none, processed := s.processed ++ [e] }

/-- Interleaving steps of the provider: an auth event arrives, or the drain
that is currently awaiting completes its event. -/
inductive AuthStep
  | deliver (e : QueuedAuthEvent)
  | finishEvent
deriving DecidableEq, Repr

/-- Run one interleaving step. -/
def authQueueStep (s : AuthQueueState) : AuthStep → AuthQueueState
  | .deliver e => onAuthStateChange s e
  | .finishEvent => finishCurrent s

/-- Run a whole interleaving from the mount state. -/
def runAuthQueue (steps : List AuthStep) : AuthQueueState :=
  steps.foldl authQueueStep initialAuthQueueState

/--
The serialization invariant of the auth queue: the processed log, the event
a running drain holds, and the pending queue concatenate to exactly the
arrival log (FIFO, nothing skipped, nothing duplicated), and the processing
flag is set exactly while a drain holds an event.
-/
def AuthQueueInv (s : AuthQueueState) : Prop :=
  s.processed ++ s.current.toList ++ s.queue = s.arrived ∧
    s.processing = s.current.isSome

/-- A mid-onboarding orchestrator state: at the roles step, with welcome and
personal already completed and one role selected. -/
def rolesStepState : OrchState :=
  { currentStep := 2
    activeSection := "roles"
    profileData := { initialProfileData with
      selected_roles := ["frontend"]
      completed_steps := ["welcome", "personal"] } }

/-- Whether some occurrence of the first event is strictly before some
occurrence of the second in a trace. -/
def occursBefore (a b : OrchEvent) : List OrchEvent → Bool
  | [] => false
  | e :: rest => if e == a then rest.contains b else occursBefore a b rest

/-- A demonstration authenticated user for concrete load scenarios. -/
def demoAuthUser : AuthUser :=
  { id := "user-1", email := some "ada@x.com", meta_full_name := some "Ada Lovelace",
    meta_avatar_url := none }

/-- A demonstration profiles-table row for concrete load scenarios. -/
def demoProfileRow : ProfileRow :=
  { full_name := some "Ada Lovelace", email := some "ada@x.com", avatar_url := none,
    phone_number := none, location := none, linkedin_url := none, github_url := none,
    website_url := none }

/-- An onboarding-mode navigation state at the personal step with nothing
completed yet. -/
def freshNavState : OrchState :=
  { currentStep := 1, activeSection := "personal", profileData := initialProfileData }

/-- A demonstration interleaving: two auth events arrive, then the two drain
awaits complete. -/
def demoAuthTrace : List AuthStep :=
  [ .deliver { event := "SIGNED_IN", sessionUser := some "ada@x.com" }
  , .deliver { event := "TOKEN_REFRESHED", sessionUser := some "ada@x.com" }
  , .finishEvent, .finishEvent ]

/-- A queue state in which a drain is currently processing an event while
another waits in the queue. -/
def busyAuthState : AuthQueueState :=
  { queue := [{ event := "SIGNED_OUT", sessionUser := none }]
    processing := true
    current := some { event := "SIGNED_IN", sessionUser := some "ada@x.com" }
    processed := []
    arrived := [{ event := "SIGNED_IN", sessionUser := some "ada@x.com" },
                { event := "SIGNED_OUT", sessionUser := none }] }

theorem tryProcessNext_inv {s : AuthQueueState} (h : AuthQueueInv s) :
    AuthQueueInv (tryProcessNext s) := by
  obtain ⟨h1, h2⟩ := h
  by_cases hp : s.processing
  · simpa [tryProcessNext, hp] using ⟨h1, h2⟩
  · cases hq : s.queue with
    | nil => simpa [tryProcessNext, hp, hq] using ⟨h1, h2⟩
    | cons e rest =>
      have hc : s.current = none := by
        cases hcur : s.current with
        | none => rfl
        | some x => exact absurd (h2.trans (by rw [hcur]; rfl)) hp
      rw [hc, hq] at h1
      constructor
      · simpa [tryProcessNext, hp, hq] using h1
      · simp [tryProcessNext, hp, hq]

theorem onAuthStateChange_inv {s : AuthQueueState} (h : AuthQueueInv s)
    (e : QueuedAuthEvent) : AuthQueueInv (onAuthStateChange s e) := by
  obtain ⟨h1, h2⟩ := h
  apply tryProcessNext_inv
  refine ⟨?_, h2⟩
  show s.processed ++ s.current.toList ++ (s.queue ++ [e]) = s.arrived ++ [e]
  rw [← h1]
  simp [List.append_assoc]

theorem finishCurrent_inv {s : AuthQueueState} (h : AuthQueueInv s) :
    AuthQueueInv (finishCurrent s) := by
  obtain ⟨h1, h2⟩ := h
  cases hcur : s.current with
  | none => simpa [finishCurrent, hcur] using ⟨h1, h2⟩
  | some e =>
    rw [hcur] at h1
    have : AuthQueueInv
        { s with processing := false, current := none, processed := s.processed ++ [e] } := by
      refine ⟨?_, rfl⟩
      simpa [List.append_assoc] using h1
    simpa [finishCurrent, hcur] using tryProcessNext_inv this

theorem authQueueStep_inv {s : AuthQueueState} (h : AuthQueueInv s) (st : AuthStep) :
    AuthQueueInv (authQueueStep s st) := by
  cases st with
  | deliver e => exact onAuthStateChange_inv h e
  | finishEvent => exact finishCurrent_inv h

theorem runAuthQueue_inv (steps : List AuthStep) : AuthQueueInv (runAuthQueue steps) := by
  have general : ∀ (l : List AuthStep) (s : AuthQueueState), AuthQueueInv s →
      AuthQueueInv (l.foldl authQueueStep s) := by
    intro l
    induction l with
    | nil => exact fun s hs => hs
    | cons st rest ih => exact fun s hs => ih _ (authQueueStep_inv hs st)
  exact general steps initialAuthQueueState ⟨rfl, rfl⟩

/--
Claim C1: for a loaded aggregate (not loading, profile data present) the
derived isOnboardingComplete signal is true exactly when the persisted
onboarding_completed flag is true, or selected_roles is non-empty and
completed_steps has at least two entries; in particular the heuristic
disjunct applies even when the explicit flag is false.
-/
theorem onboarding_complete_iff_flag_or_heuristic (d : ProfileData) :
    isOnboardingComplete false (some d) = true ↔
      d.onboarding_completed = true ∨
        (d.selected_roles ≠ [] ∧ 2 ≤ d.completed_steps.length) := by
  cases hb : d.onboarding_completed <;>
    simp [isOnboardingComplete, hb, List.length_pos]

/--
Claim C10: while the store is loading, or before any profile aggregate has
been loaded, the derived isOnboardingComplete signal is false regardless of
any persisted flag.
-/
theorem onboarding_incomplete_before_first_load :
    (∀ profileData : Option ProfileData, isOnboardingComplete true profileData = false) ∧
      ∀ isLoading : Bool, isOnboardingComplete isLoading none = false := by
  constructor
  · intro pd
    simp [isOnboardingComplete]
  · intro b
    cases b <;> simp [isOnboardingComplete]

/--
Claim C3: on a loaded aggregate, saveProfile issues exactly the three
upserts to the profiles, user_preferences and user_onboarding tables in
every run (no roll back, no abort after a failure), and returns a boolean
that is true exactly when all three upserts succeeded; the model is a total
function into a returned boolean, mirroring the source which never throws
to its caller.
-/
theorem save_profile_three_upserts (d : ProfileData) (r : SaveRemote) :
    (saveProfile (some d) r).1 =
        [RemoteOp.upsert .profiles, RemoteOp.upsert .user_preferences,
          RemoteOp.upsert .user_onboarding] ∧
      (saveProfile (some d) r).2 =
        some (r.profilesOk && r.preferencesOk && r.onboardingOk) ∧
      ((saveProfile (some d) r).2 = some true ↔
        r.profilesOk = true ∧ r.preferencesOk = true ∧ r.onboardingOk = true) := by
  obtain ⟨p, q, w⟩ := r
  refine ⟨rfl, ?_, ?_⟩ <;> cases p <;> cases q <;> cases w <;> simp [saveProfile]

/--
Claim C4: a field is visible in onboarding mode exactly when its tier is
ESSENTIAL, every field is visible in profile mode, and a field with an
undefined or out-of-enum tier has the same visibility as a COMPREHENSIVE
field in both modes (hidden during onboarding, shown in profile mode),
without any error.
-/
theorem tier_visibility_rules (f : TieredField) :
    (isVisibleField f .onboarding = true ↔ f.tier = some FieldTier.ESSENTIAL) ∧
      isVisibleField f .profile = true ∧
      ∀ (i : String) (r : Bool) (m : ExperienceMode),
        isVisibleField ⟨i, none, r⟩ m
          = isVisibleField ⟨i, some FieldTier.COMPREHENSIVE, r⟩ m := by
  refine ⟨?_, rfl, ?_⟩
  · simp [isVisibleField]
  · intro i r m
    cases m <;> rfl

/--
Claim C5: the personal section's validity is exactly trimmed name of length
at least 2, an email matching the local-at-domain-dot-tld shape, and a phone
that is either blank or matches the loose pattern of at least ten
digit-space-dash-parenthesis characters after an optional plus sign; it
depends on no other field; and on the personal step canContinue equals that
validity flag whenever no save is in flight.
-/
theorem personal_validation_rules (fullName email phone : List Char) :
    (validatePersonalInfo fullName email phone = true ↔
        (2 ≤ (trimChars fullName).length ∧ emailRegexAccepts email = true ∧
          (trimChars phone = [] ∨ phoneRegexAccepts phone = true))) ∧
      ∀ isSaving isFormValid : Bool,
        canContinue 1 isSaving isFormValid = (!isSaving && isFormValid) := by
  constructor
  · simp [validatePersonalInfo, Bool.and_eq_true, Bool.or_eq_true, List.isEmpty_iff,
      and_assoc]
  · intro sv b
    cases sv <;> cases b <;> rfl

/--
Claim C6: completeStep appends the section id exactly when it is absent, is
idempotent (a second identical call changes nothing, so two calls grow
completed_steps by exactly one), and issues no remote write.
-/
theorem complete_step_idempotent (pd : ProfileData) (stepId : String) :
    (completeStep pd stepId).2 = [] ∧
      (completeStep (completeStep pd stepId).1 stepId).1 = (completeStep pd stepId).1 ∧
      (stepId ∈ pd.completed_steps → (completeStep pd stepId).1 = pd) ∧
      (stepId ∉ pd.completed_steps →
        (completeStep pd stepId).1.completed_steps = pd.completed_steps ++ [stepId] ∧
          (completeStep (completeStep pd stepId).1 stepId).1.completed_steps.length
            = pd.completed_steps.length + 1) := by
  by_cases h : stepId ∈ pd.completed_steps
  · simp [completeStep, h]
  · have h2 : stepId ∈ pd.completed_steps ++ [stepId] := by simp
    simp [completeStep, h, h2]

/--
Claim C7: every delivered auth event is appended to the FIFO queue on
arrival and the drain loop processes events one at a time in arrival order:
over every interleaving of deliveries and drain completions, the processed
log followed by the event a running drain holds and the pending queue is
exactly the arrival log (strict FIFO, nothing skipped or duplicated), the
processing flag is set exactly while one event is in flight, and a drain
attempt while the flag is set changes nothing (no second drain starts).
-/
theorem auth_queue_serializes (steps : List AuthStep) :
    ((runAuthQueue steps).processed ++ (runAuthQueue steps).current.toList ++
        (runAuthQueue steps).queue = (runAuthQueue steps).arrived) ∧
      ((runAuthQueue steps).processing = (runAuthQueue steps).current.isSome) ∧
      ∀ s : AuthQueueState, s.processing = true → tryProcessNext s = s := by
  refine ⟨(runAuthQueue_inv steps).1, (runAuthQueue_inv steps).2, ?_⟩
  intro s hs
  simp [tryProcessNext, hs]

/-- Witness for claim C7 at a concrete interleaving and a concrete busy
state. -/
theorem auth_queue_serializes_witness :
    ((runAuthQueue demoAuthTrace).processed ++ (runAuthQueue demoAuthTrace).current.toList ++
        (runAuthQueue demoAuthTrace).queue = (runAuthQueue demoAuthTrace).arrived) ∧
      tryProcessNext busyAuthState = busyAuthState :=
  ⟨(auth_queue_serializes demoAuthTrace).1,
    (auth_queue_serializes demoAuthTrace).2.2 busyAuthState rfl⟩

/-- Witness for claim C6 at the initial aggregate and the welcome step. -/
theorem complete_step_idempotent_witness :
    (completeStep initialProfileData "welcome").1.completed_steps =
        initialProfileData.completed_steps ++ ["welcome"] ∧
      (completeStep (completeStep initialProfileData "welcome").1 "welcome").1.completed_steps.length
        = initialProfileData.completed_steps.length + 1 :=
  (complete_step_idempotent initialProfileData "welcome").2.2.2 (by decide)

/--
Claim C2 counterexample: at the roles step with canContinue true, the step
is taken (the trace contains the increment) and the current section is
marked complete first, but no save occurs before the increment: the source
moves currentStep and only then calls saveProfile, so the claimed order
complete-save-increment is violated at this concrete input.
-/
theorem handle_next_save_not_before_increment :
    canContinue rolesStepState.currentStep false true = true ∧
      (handleNext rolesStepState false true).2 =
        [OrchEvent.markComplete "roles", OrchEvent.incrementStep, OrchEvent.save] ∧
      occursBefore OrchEvent.save OrchEvent.incrementStep
        (handleNext rolesStepState false true).2 = false := by
  refine ⟨rfl, rfl, rfl⟩

/--
Claim C2 amended: for every forward step taken while canAdvance is true and
the index is not the terminal complete index, the orchestrator marks the
current section complete (if not already marked), then increments
currentStepIndex by 1, and only then persists via save, with one extra
leading save when the current section is personal, and it does not touch
onboarding_completed; when forward is invoked while the index is already at
the terminal complete index, it does not increment, and after the marking
it sets onboarding_completed to true, then issues the final save, then the
dashboard redirect, in that order.
-/
theorem handle_next_ordering (s : OrchState) (isFormValid : Bool)
    (hc : canContinue s.currentStep false isFormValid = true) :
    (s.currentStep ≠ (profileSections.length : Int) - 1 →
        (handleNext s false isFormValid).2 =
            (if s.activeSection == "personal" then [OrchEvent.save] else []) ++
              (if s.activeSection ∈ s.profileData.completed_steps then []
                else [OrchEvent.markComplete s.activeSection]) ++
              [OrchEvent.incrementStep, OrchEvent.save] ∧
          (handleNext s false isFormValid).1.currentStep = s.currentStep + 1 ∧
          (handleNext s false isFormValid).1.profileData.onboarding_completed
            = s.profileData.onboarding_completed) ∧
      (s.currentStep = (profileSections.length : Int) - 1 →
        (handleNext s false isFormValid).2 =
            (if s.activeSection == "personal" then [OrchEvent.save] else []) ++
              (if s.activeSection ∈ s.profileData.completed_steps then []
                else [OrchEvent.markComplete s.activeSection]) ++
              [OrchEvent.setCompletedFlag, OrchEvent.save, OrchEvent.redirectToDashboard] ∧
          (handleNext s false isFormValid).1.currentStep = s.currentStep ∧
          (handleNext s false isFormValid).1.profileData.onboarding_completed = true) := by
  have hcn : (!canContinue s.currentStep false isFormValid) = false := by
    rw [hc]
    rfl
  constructor
  · intro hne
    have hb : (s.currentStep == (profileSections.length : Int) - 1) = false :=
      beq_eq_false_iff_ne.mpr hne
    by_cases hm : s.activeSection ∈ s.profileData.completed_steps <;>
      simp [handleNext, hcn, hb, hm]
  · intro he
    have hb : (s.currentStep == (profileSections.length : Int) - 1) = true :=
      beq_iff_eq.mpr he
    by_cases hm : s.activeSection ∈ s.profileData.completed_steps <;>
      simp [handleNext, hcn, hb, hm]

/-- Witness for the amended claim C2 at the concrete roles-step state. -/
theorem handle_next_ordering_witness :
    (handleNext rolesStepState false true).2 =
        (if rolesStepState.activeSection == "personal" then [OrchEvent.save] else []) ++
          (if rolesStepState.activeSection ∈ rolesStepState.profileData.completed_steps
            then [] else [OrchEvent.markComplete rolesStepState.activeSection]) ++
          [OrchEvent.incrementStep, OrchEvent.save] ∧
      (handleNext rolesStepState false true).1.currentStep = rolesStepState.currentStep + 1 ∧
      (handleNext rolesStepState false true).1.profileData.onboarding_completed
        = rolesStepState.profileData.onboarding_completed :=
  (handle_next_ordering rolesStepState true (by decide)).1 (by decide)

/--
Claim C8 counterexample: with an authenticated user, a successful profiles
fetch, a preferences fetch failing with a code other than PGRST116, and a
successful (empty) onboarding fetch, loadProfileData still installs a merged
aggregate built from the remaining collections with defaults for the failed
one, instead of leaving the in-memory aggregate empty as claimed.
-/
theorem load_builds_aggregate_despite_preferences_error :
    loadProfileData (some demoAuthUser) (.success demoProfileRow)
        (.failure "57014") (.success none) =
      some (combineProfileData demoAuthUser (some demoProfileRow) none none) ∧
      (loadProfileData (some demoAuthUser) (.success demoProfileRow)
          (.failure "57014") (.success none)).isSome = true := by
  exact ⟨rfl, rfl⟩

/--
Claim C8 amended: not-found results are treated as use-defaults on all
three collections; a profiles error other than PGRST116 aborts the load and
leaves the aggregate empty; a preferences or onboarding error of any kind is
only logged and the load continues exactly as if that collection had no row,
still building the merged aggregate; with no authenticated user the load
leaves the aggregate empty.
-/
theorem load_error_handling (u : AuthUser) (profileRes : FetchRes ProfileRow)
    (preferencesRes : FetchRes (Option PreferencesRow))
    (onboardingRes : FetchRes (Option OnboardingRow)) :
    (∀ c, c ≠ notFoundCode →
        loadProfileData (some u) (.failure c) preferencesRes onboardingRes = none) ∧
      loadProfileData (some u) (.failure notFoundCode) preferencesRes onboardingRes =
        some (combineProfileData u none (rowOf preferencesRes) (rowOf onboardingRes)) ∧
      (∀ c, loadProfileData (some u) profileRes (.failure c) onboardingRes =
        loadProfileData (some u) profileRes (.success none) onboardingRes) ∧
      (∀ c, loadProfileData (some u) profileRes preferencesRes (.failure c) =
        loadProfileData (some u) profileRes preferencesRes (.success none)) ∧
      loadProfileData none profileRes preferencesRes onboardingRes = none := by
  refine ⟨?_, ?_, ?_, ?_, rfl⟩
  · intro c hcode
    have hb : (c == notFoundCode) = false := beq_eq_false_iff_ne.mpr hcode
    simp [loadProfileData, hb]
  · simp [loadProfileData]
  · intro c
    cases profileRes <;> simp [loadProfileData, rowOf]
  · intro c
    cases profileRes <;> simp [loadProfileData, rowOf]

/-- Witness for the amended claim C8 at a concrete hard profiles error. -/
theorem load_error_handling_witness :
    loadProfileData (some demoAuthUser) (.failure "57014") (.success none) (.success none)
      = none :=
  (load_error_handling demoAuthUser (.success demoProfileRow) (.success none)
    (.success none)).1 "57014" (by decide)

/--
Claim C9: a section click is honoured unconditionally in profile mode (a
click on a different section activates it and moves the step index, a click
on the active section changes nothing), while in onboarding mode a click on
a section not yet in completed_steps is a no-op, and so is any repetition of
it.
-/
theorem section_click_guard (s : OrchState) (sectionId : String) :
    (sectionId ∉ s.profileData.completed_steps →
        handleSectionClick .onboarding s sectionId = s ∧
          handleSectionClick .onboarding (handleSectionClick .onboarding s sectionId) sectionId
            = s) ∧
      (s.activeSection ≠ sectionId →
        (handleSectionClick .profile s sectionId).activeSection = sectionId ∧
          (handleSectionClick .profile s sectionId).currentStep = findSectionIndex sectionId) ∧
      (s.activeSection = sectionId → handleSectionClick .profile s sectionId = s) := by
  refine ⟨?_, ?_, ?_⟩
  · intro h
    have h1 : handleSectionClick .onboarding s sectionId = s := by
      simp [handleSectionClick, h]
    exact ⟨h1, by rw [h1, h1]⟩
  · intro h
    have hb : (s.activeSection == sectionId) = false := beq_eq_false_iff_ne.mpr h
    simp [handleSectionClick, hb]
  · intro h
    simp [handleSectionClick, h]

/-- Witness for claim C9: two clicks on the roles section in onboarding mode
before it is completed are both no-ops. -/
theorem section_click_guard_witness :
    handleSectionClick .onboarding freshNavState "roles" = freshNavState ∧
      handleSectionClick .onboarding
          (handleSectionClick .onboarding freshNavState "roles") "roles"
        = freshNavState :=
  (section_click_guard freshNavState "roles").1 (by decide)

end RightBoss
